import Mathlib

/-!
# Verification of the FX3 UVC in-memory streaming example (cyfxuvcinmem.c)

Shallow embedding of the streaming core of `src/cyfxuvcinmem/cyfxuvcinmem.c`:
the Bandwidth Adapter (`CyFxUvcAppSetMultByEpm`), the Header Stamper
(`CyFxUVCAddHeader`), the DMA consume-event callback (`CyFxUVCAppDmaCallback`),
the producer loop body of `UVCAppThread_Entry`, and the error-handling path.

Machine integers are modelled as `Nat` with explicit masking where the C code
can truncate (`uint16_t commitLength` is reduced mod 2^16; the `uint32_t`
register values are handled through the masks the code itself applies).
-/

namespace Uvc

/-! ## Register-layout constants (cyfxuvcinmem.c lines 74-83) -/

/-- Constant `FX3_USB2_INEP_MULT_MASK` (line 76). -/
def FX3_USB2_INEP_MULT_MASK : ℕ := 0x00003000

/-- Constant `FX3_USB2_INEP_MULT_POS` (line 77). -/
def FX3_USB2_INEP_MULT_POS : ℕ := 12

/-- Constant `FX3_USB2_INEP_EPM_READY_MASK` (line 81). -/
def FX3_USB2_INEP_EPM_READY_MASK : ℕ := 0x40000000

/-- Constant `FX3_USB2_INEP_EPM_DSIZE_MASK` (line 82). -/
def FX3_USB2_INEP_EPM_DSIZE_MASK : ℕ := 0x07FFF800

/-- Constant `FX3_USB2_INEP_EPM_DSIZE_POS` (line 83). -/
def FX3_USB2_INEP_EPM_DSIZE_POS : ℕ := 11

/-- Whether the EEPM_ENDPOINT register value has the ready bit set
(line 133: `(val2 & FX3_USB2_INEP_EPM_READY_MASK) != 0`). -/
def epmReady (val2 : ℕ) : Bool :=
  val2 &&& FX3_USB2_INEP_EPM_READY_MASK ≠ 0

/-- Number of data bytes ready in the endpoint memory, as extracted by
line 135: `(val2 & FX3_USB2_INEP_EPM_DSIZE_MASK) >> FX3_USB2_INEP_EPM_DSIZE_POS`. -/
def epmDsize (val2 : ℕ) : ℕ :=
  (val2 &&& FX3_USB2_INEP_EPM_DSIZE_MASK) >>> FX3_USB2_INEP_EPM_DSIZE_POS

/-- The raw (pre-clamp) multiplier computed on lines 130-137: `0` when the EPM
is not ready, otherwise `(dsize / 1024) + 1`.  The C variable is a `uint8_t`,
but the value is at most `0xFFFF / 1024 + 1 = 64`, so no truncation occurs
(see `epmDsize_le`). -/
def rawMult (val2 : ℕ) : ℕ :=
  if epmReady val2 then epmDsize val2 / 1024 + 1 else 0

/-- The MULT bit-field of a DEV_EPI_CS register value. -/
def multField (val1 : ℕ) : ℕ :=
  (val1 &&& FX3_USB2_INEP_MULT_MASK) >>> FX3_USB2_INEP_MULT_POS

/-- Function `CyFxUvcAppSetMultByEpm` (lines 124-147), as a function of the two register
values it reads: `val1` from `FX3_USB2_INEP_CFG_ADDR_BASE + 4*ep` and `val2`
from `FX3_USB2_INEP_EPM_ADDR_BASE + 4*ep`.  Returns the value written back to
the configuration register and the new `CurrentMultVal`.  Lines 130-139 compute
`multVal` and store the raw value into `CurrentMultVal`; lines 142-143 clamp
the local copy with `CY_U3P_MIN`/`CY_U3P_MAX`; lines 145-146 splice the clamped
value into the MULT field and write the register back.  `~FX3_USB2_INEP_MULT_MASK`
on a `uint32_t` is `0xFFFFCFFF`. -/
def CyFxUvcAppSetMultByEpm (val1 val2 : ℕ) : ℕ × ℕ :=
  let currentMultVal := rawMult val2
  let multVal := max (min (rawMult val2) 3) 1
  ((val1 &&& 0xFFFFCFFF) ||| (multVal <<< FX3_USB2_INEP_MULT_POS), currentMultVal)

/-- The spec's multiplier formula, written from the spec's words
("Multiplier is `clamp(ceil(bytes_ready / 1024), 1, 3)`"), for comparison
with the value the source actually programs. -/
def specClampCeilMult (bytesReady : ℕ) : ℕ :=
  max (min ((bytesReady + 1023) / 1024) 3) 1

/-! ## Header Stamper (`CyFxUVCAddHeader`, lines 90-96 and 613-632) -/

/-- Constant `CY_FX_UVC_MAX_HEADER`.  The constant lives in the project header file,
which is not part of `src/`; its value 12 is fixed by the source itself: the
`glUVCHeader` initialiser (lines 90-96) is a 12-byte array whose first byte,
the header-length field, is `0x0C`. -/
def CY_FX_UVC_MAX_HEADER : ℕ := 12

/-- Modelled from the spec: `CY_FX_UVC_HEADER_FRAME_ID`, the frame-identifier
bit of the UVC bitfield header byte, is defined in the project header file,
which is missing from `src/`.  The spec describes it as "a toggling
frame-identifier bit"; the standard UVC payload-header FID bit is bit 0. -/
def CY_FX_UVC_HEADER_FRAME_ID : ℕ := 0x01

/-- Modelled from the spec: `CY_FX_UVC_HEADER_EOF`, the end-of-frame marker
bit of the UVC bitfield header byte, is defined in the missing project header
file.  The spec describes it as "an end-of-frame marker"; the standard UVC
payload-header EOF bit is bit 1. -/
def CY_FX_UVC_HEADER_EOF : ℕ := 0x02

/-- Modelled from the spec: `CY_FX_UVC_HEADER_FRAME`, the "normal frame"
indication passed to `CyFxUVCAddHeader` for non-final chunks (line 680), is
defined in the missing project header file; any value different from
`CY_FX_UVC_HEADER_EOF` selects the non-EOF branch, and 0 is the conventional
choice. -/
def CY_FX_UVC_HEADER_FRAME : ℕ := 0x00

/-- Modelled from the spec: `CY_FX_UVC_HEADER_DEFAULT_BFH`, the reset value of
the bitfield header byte (line 657), is defined in the missing project header
file; the `glUVCHeader` initialiser in the source (line 93) sets that byte to
`0x8C`. -/
def CY_FX_UVC_HEADER_DEFAULT_BFH : ℕ := 0x8C

/-- The initial `glUVCHeader` template (lines 90-96): header length `0x0C`,
bitfield `0x8C`, zeroed timestamp and clock-reference fields. -/
def glUVCHeaderInit : List ℕ := [0x0C, 0x8C, 0, 0, 0, 0, 0, 0, 0, 0, 0, 0]

/-- Function `CyFxUVCAddHeader` (lines 614-632), as a function of the current
`glUVCHeader` template and the `frameInd` argument.  Returns the new template
and the 12 header bytes placed at the start of the buffer.  Line 621 copies the
template into the buffer; on EOF, line 627 toggles the frame-id bit in the
template (`glUVCHeader[1] ^= CY_FX_UVC_HEADER_FRAME_ID`) and line 630 sets the
EOF bit in the buffer's copy (`buffer_p[1] |= CY_FX_UVC_HEADER_EOF`).  Both
operate on `uint8_t` values below 256, where XOR and OR with a bit cannot
overflow, so no truncation is modelled. -/
def CyFxUVCAddHeader (tmpl : List ℕ) (frameInd : ℕ) : List ℕ × List ℕ :=
  if frameInd = CY_FX_UVC_HEADER_EOF then
    (tmpl.set 1 (tmpl.getD 1 0 ^^^ CY_FX_UVC_HEADER_FRAME_ID),
     tmpl.set 1 (tmpl.getD 1 0 ||| CY_FX_UVC_HEADER_EOF))
  else
    (tmpl, tmpl)

/-- The header template after `n` completed frames, i.e. after `n` EOF stamps
of `CyFxUVCAddHeader`. -/
def stampEofIter (tmpl : List ℕ) : ℕ → List ℕ
  | 0 => tmpl
  | n + 1 => stampEofIter (CyFxUVCAddHeader tmpl CY_FX_UVC_HEADER_EOF).1 n

/-! ## Streaming-loop chunk production (`UVCAppThread_Entry`, lines 670-777) -/

/-- One committed chunk: the number of payload bytes copied from the frame
store, the committed length (a `uint16_t`, hence reduced mod 2^16), and
whether the header was stamped with the EOF indication. -/
structure Chunk where
  copied : ℕ
  commit : ℕ
  eof : Bool
deriving DecidableEq, Repr

/-- The sequence of chunks the producer loop emits for one frame of length
`len`, starting from intra-frame offset `frameOffset`, with DMA buffer size
`bufSize` (`CY_FX_UVC_STREAM_BUF_SIZE`, a build-time constant from the missing
project header, kept as a parameter).  Mirrors lines 670-777: while
`frameOffset + (bufSize - 12) < len` (line 671) the loop copies
`bufSize - 12` payload bytes (line 675), stamps a normal header and commits
`commitLength = bufSize` (line 684, a `uint16_t`); otherwise it copies the
remaining `len - frameOffset` bytes (line 724), commits
`commitLength = (len - frameOffset) + 12` (line 730) and stamps the EOF
header.  The hypothesis `12 < bufSize` (the real buffer is far larger than
the header) guarantees termination. -/
def frameChunks (bufSize len frameOffset : ℕ) (hB : 12 < bufSize) : List Chunk :=
  if frameOffset + (bufSize - CY_FX_UVC_MAX_HEADER) < len then
    ⟨bufSize - CY_FX_UVC_MAX_HEADER, bufSize % 65536, false⟩ ::
      frameChunks bufSize len (frameOffset + (bufSize - CY_FX_UVC_MAX_HEADER)) hB
  else
    [⟨len - frameOffset, ((len - frameOffset) + CY_FX_UVC_MAX_HEADER) % 65536, true⟩]
termination_by len - frameOffset
decreasing_by
  simp only [CY_FX_UVC_MAX_HEADER] at *
  omega

/-- The producer's cursor: `frameStart`, `frameIndex`, `frameOffset`
(lines 641 and 652-654, updated on lines 717 and 766-776). -/
structure Cursor where
  frameStart : ℕ
  frameIndex : ℕ
  frameOffset : ℕ
deriving DecidableEq, Repr

/-- One iteration of the producer loop body (lines 670-777), restricted to the
chunk it emits and the cursor update, as a function of the playlist of frame
lengths `frameLens` (`glVidFrameLen`, with `CY_FX_UVC_MAX_VID_FRAMES =
frameLens.length`).  The mid-frame branch (lines 674-717) advances
`frameOffset`; the final branch (lines 721-776) resets `frameOffset`,
accumulates `frameStart`, increments `frameIndex` and wraps both to 0 when the
playlist is exhausted. -/
def loopStep (bufSize : ℕ) (frameLens : List ℕ) (c : Cursor) : Chunk × Cursor :=
  let len := frameLens.getD c.frameIndex 0
  if c.frameOffset + (bufSize - CY_FX_UVC_MAX_HEADER) < len then
    (⟨bufSize - CY_FX_UVC_MAX_HEADER, bufSize % 65536, false⟩,
     { c with frameOffset := c.frameOffset + (bufSize - CY_FX_UVC_MAX_HEADER) })
  else
    (⟨len - c.frameOffset, ((len - c.frameOffset) + CY_FX_UVC_MAX_HEADER) % 65536, true⟩,
     if c.frameIndex + 1 ≥ frameLens.length then ⟨0, 0, 0⟩
     else ⟨c.frameStart + len, c.frameIndex + 1, 0⟩)

/-! ## Event traces for the commit path, the DMA callback and error handling -/

/-- Observable actions of the producer and the callback on the transport and
the hardware registers. -/
inductive Ev where
  | setEpNak (nak : Bool)
  | busyWait (us : ℕ)
  | commitBuffer (len : ℕ)
  | writeEpCfgReg (val : ℕ)
  | threadSleep (ms : ℕ)
deriving DecidableEq, Repr

/-- Connection speed as tested by `CyU3PUsbGetSpeed`. -/
inductive Speed where
  | high
  | superSpeed
  | full
deriving DecidableEq, Repr

/-- DMA callback event type (only `CY_U3P_DMA_CB_CONS_EVENT` is relevant,
line 203). -/
inductive CbType where
  | consEvent
  | other
deriving DecidableEq, Repr

/-- The high-speed commit path of the producer (lines 686-704 for a mid-frame
chunk, lines 736-754 for a final chunk — the two blocks are textually
identical up to the implied-multiplier expression, passed here as
`impliedMult`: `CY_FX_EP_ISO_VIDEO_PKTS_COUNT` at line 690 and
`(commitLength / 1024) + 1` at line 740).  `currentMult` is the value of the
shared `CurrentMultVal`; `cfgVal`/`epmVal` are the register values
`CyFxUvcAppSetMultByEpm` reads when invoked.  Returns the emitted event trace
and the new `CurrentMultVal`.  When the multiplier must change (lines
692-697): NAK the endpoint, busy-wait 10 µs, commit, busy-wait 20 µs, call
`CyFxUvcAppSetMultByEpm` (which writes the configuration register and updates
`CurrentMultVal`), clear NAK.  Otherwise (line 702): just commit. -/
def hsCommit (currentMult impliedMult commitLength cfgVal epmVal : ℕ) : List Ev × ℕ :=
  if currentMult ≠ impliedMult then
    ([Ev.setEpNak true, Ev.busyWait 10, Ev.commitBuffer commitLength, Ev.busyWait 20,
      Ev.writeEpCfgReg (CyFxUvcAppSetMultByEpm cfgVal epmVal).1, Ev.setEpNak false],
     (CyFxUvcAppSetMultByEpm cfgVal epmVal).2)
  else
    ([Ev.commitBuffer commitLength], currentMult)

/-- The commit sequence the spec's words describe, written from claim C2 /
spec §4.3: the multiplier is written *before* the commit is issued, inside
the NAK window — set NAK, wait, write the multiplier register, wait, clear
NAK, then commit.  For comparison with `hsCommit`. -/
def specApplyThenCommit (commitLength cfgVal epmVal : ℕ) : List Ev :=
  [Ev.setEpNak true, Ev.busyWait 10,
   Ev.writeEpCfgReg (CyFxUvcAppSetMultByEpm cfgVal epmVal).1, Ev.busyWait 20,
   Ev.setEpNak false, Ev.commitBuffer commitLength]

/-- Function `CyFxUVCAppDmaCallback` (lines 197-211), as a function of the callback
type, the connection speed, the two register values `CyFxUvcAppSetMultByEpm`
reads, and the current `CurrentMultVal`.  On a consume event at high speed it
calls `CyFxUvcAppSetMultByEpm` (line 208), which writes the endpoint
configuration register and updates `CurrentMultVal`; otherwise it does
nothing. -/
def CyFxUVCAppDmaCallback (t : CbType) (speed : Speed) (cfgVal epmVal currentMult : ℕ) :
    List Ev × ℕ :=
  if t = CbType.consEvent ∧ speed = Speed.high then
    ([Ev.writeEpCfgReg (CyFxUvcAppSetMultByEpm cfgVal epmVal).1],
     (CyFxUvcAppSetMultByEpm cfgVal epmVal).2)
  else
    ([], currentMult)

/-! ## Error handling (`UVCAppThread_Entry` lines 660-790, `CyFxAppErrorHandler`
lines 106-121) -/

/-- The first `n` actions of `CyFxAppErrorHandler` (lines 106-121): an
unconditional `for (;;) CyU3PThreadSleep (100);` — every step is a 100 ms
sleep, and the handler never returns or retries. -/
def errorHandlerTrace : ℕ → List Ev
  | 0 => []
  | n + 1 => Ev.threadSleep 100 :: errorHandlerTrace n

/-- Environment observations of one iteration of the inner `while
(glIsApplnActive)` loop (lines 660-778): the value of the volatile
`glIsApplnActive` flag read by the `while` condition, and the status codes
returned by `CyU3PDmaChannelGetBuffer` and `CyU3PDmaChannelCommitBuffer`
(0 = `CY_U3P_SUCCESS`). -/
structure IterEnv where
  active : Bool
  acquireStatus : ℕ
  commitStatus : ℕ
deriving DecidableEq, Repr

/-- The inner production loop folded over a script of environment
observations, returning the value of the local `status` variable when the
loop exits.  Each iteration first reads `glIsApplnActive` (loop exits with
the current status when it is false); a failing `CyU3PDmaChannelGetBuffer`
breaks with its status (lines 663-668); a failing
`CyU3PDmaChannelCommitBuffer` breaks with its status (lines 711-714 and
761-764); a fully successful iteration leaves `status = CY_U3P_SUCCESS` and
continues.  An exhausted script stands for the flag reading false from then
on. -/
def runPass (st : ℕ) : List IterEnv → ℕ
  | [] => st
  | e :: rest =>
    if e.active then
      if e.acquireStatus ≠ 0 then e.acquireStatus
      else if e.commitStatus ≠ 0 then e.commitStatus
      else runPass 0 rest
    else st

/-- Outcome of one pass of the outer `for (;;)` loop after the inner loop
exits (lines 780-788): either the fatal error handler is invoked, or the
thread sleeps 100 ms and re-checks the controller state. -/
inductive PassOutcome where
  | fatalHalt
  | idleSleep
deriving DecidableEq, Repr

/-- Lines 781-788: after the inner loop exits with status `st`, the producer
re-reads `glIsApplnActive` (as `activeAtCheck`); if the status is a failure
and the application is still active it calls `CyFxAppErrorHandler` (line
784), otherwise it sleeps 100 ms and loops back to idle. -/
def afterPass (st : ℕ) (activeAtCheck : Bool) : PassOutcome :=
  if st ≠ 0 ∧ activeAtCheck then PassOutcome.fatalHalt else PassOutcome.idleSleep

/-- A full pass of the streamer: run the inner loop over the script, then
apply the exit check. -/
def streamerPass (iters : List IterEnv) (activeAtCheck : Bool) : PassOutcome :=
  afterPass (runPass 0 iters) activeAtCheck

/-! ## Helper lemmas -/

lemma epmDsize_le (val2 : ℕ) : epmDsize val2 ≤ 0xFFFF := by
  have h1 : val2 &&& FX3_USB2_INEP_EPM_DSIZE_MASK ≤ FX3_USB2_INEP_EPM_DSIZE_MASK :=
    Nat.and_le_right
  have h2 : (val2 &&& FX3_USB2_INEP_EPM_DSIZE_MASK) >>> 11 ≤
      (0x07FFF800 : ℕ) >>> 11 := by
    simp only [Nat.shiftRight_eq_div_pow]
    exact Nat.div_le_div_right h1
  simpa [epmDsize, FX3_USB2_INEP_EPM_DSIZE_POS, FX3_USB2_INEP_EPM_DSIZE_MASK] using h2

lemma and_lor_distrib_right (a b c : ℕ) :
    (a ||| b) &&& c = (a &&& c) ||| (b &&& c) := by
  apply Nat.eq_of_testBit_eq
  intro i
  simp only [Nat.testBit_and, Nat.testBit_or]
  cases a.testBit i <;> cases b.testBit i <;> cases c.testBit i <;> rfl

lemma clamped_lt_four (m : ℕ) : max (min m 3) 1 < 4 := by omega

/-- Splicing a small value into the MULT field and reading the field back
returns the value, whatever the other register bits are. -/
lemma multField_splice (val1 m : ℕ) (hm : m < 4) :
    multField ((val1 &&& 0xFFFFCFFF) ||| (m <<< 12)) = m := by
  have h1 : (val1 &&& 0xFFFFCFFF) &&& 0x3000 = 0 := by
    have : (0xFFFFCFFF : ℕ) &&& 0x3000 = 0 := by decide
    rw [Nat.and_assoc, this, Nat.and_zero]
  have h2 : (m <<< 12) &&& 0x3000 = m <<< 12 := by
    interval_cases m <;> decide
  have h3 : ((val1 &&& 0xFFFFCFFF) ||| (m <<< 12)) &&& 0x3000 = m <<< 12 := by
    rw [and_lor_distrib_right, h1, h2, Nat.zero_or]
  show (_ &&& FX3_USB2_INEP_MULT_MASK) >>> FX3_USB2_INEP_MULT_POS = m
  have hmask : FX3_USB2_INEP_MULT_MASK = (0x3000 : ℕ) := rfl
  have hpos : FX3_USB2_INEP_MULT_POS = (12 : ℕ) := rfl
  rw [hmask, hpos, h3]
  simp [Nat.shiftLeft_eq, Nat.shiftRight_eq_div_pow]

/-- The bits outside the MULT field are preserved by the splice. -/
lemma splice_preserves_outside (val1 m : ℕ) (hm : m < 4) :
    ((val1 &&& 0xFFFFCFFF) ||| (m <<< 12)) &&& 0xFFFFCFFF = val1 &&& 0xFFFFCFFF := by
  have h2 : (m <<< 12) &&& 0xFFFFCFFF = 0 := by
    interval_cases m <;> decide
  rw [and_lor_distrib_right, h2, Nat.or_zero, Nat.and_assoc]
  norm_num

/-- The MULT field written by `CyFxUvcAppSetMultByEpm` is the clamped raw
multiplier. -/
lemma multField_setMult (val1 val2 : ℕ) :
    multField (CyFxUvcAppSetMultByEpm val1 val2).1 = max (min (rawMult val2) 3) 1 :=
  multField_splice val1 _ (clamped_lt_four _)

/-! ### Unfolding and structure lemmas for `frameChunks` -/

lemma frameChunks_step (bufSize len off : ℕ) (hB : 12 < bufSize)
    (h : off + (bufSize - CY_FX_UVC_MAX_HEADER) < len) :
    frameChunks bufSize len off hB =
      ⟨bufSize - CY_FX_UVC_MAX_HEADER, bufSize % 65536, false⟩ ::
        frameChunks bufSize len (off + (bufSize - CY_FX_UVC_MAX_HEADER)) hB := by
  rw [frameChunks, if_pos h]

lemma frameChunks_last (bufSize len off : ℕ) (hB : 12 < bufSize)
    (h : ¬ off + (bufSize - CY_FX_UVC_MAX_HEADER) < len) :
    frameChunks bufSize len off hB =
      [⟨len - off, ((len - off) + CY_FX_UVC_MAX_HEADER) % 65536, true⟩] := by
  rw [frameChunks, if_neg h]

lemma frameChunks_ne_nil (bufSize len off : ℕ) (hB : 12 < bufSize) :
    frameChunks bufSize len off hB ≠ [] := by
  rw [frameChunks]
  split <;> simp

lemma frameChunks_copied_sum (bufSize len : ℕ) (off : ℕ) (hB : 12 < bufSize) :
    ((frameChunks bufSize len off hB).map Chunk.copied).sum = len - off := by
  induction off, hB using frameChunks.induct bufSize len with
  | case1 off hB hcond ih =>
      rw [frameChunks_step _ _ _ _ hcond]
      simp only [List.map_cons, List.sum_cons, ih]
      simp only [CY_FX_UVC_MAX_HEADER] at *
      omega
  | case2 off hB hcond =>
      rw [frameChunks_last _ _ _ _ hcond]
      simp

lemma frameChunks_commit_sum (bufSize len : ℕ) (hBs : bufSize ≤ 65535)
    (hLen : len + 12 ≤ 65535) (off : ℕ) (hB : 12 < bufSize) :
    ((frameChunks bufSize len off hB).map Chunk.commit).sum
      = CY_FX_UVC_MAX_HEADER * (frameChunks bufSize len off hB).length + (len - off) := by
  induction off, hB using frameChunks.induct bufSize len with
  | case1 off hB hcond ih =>
      rw [frameChunks_step _ _ _ _ hcond]
      simp only [List.map_cons, List.sum_cons, List.length_cons, ih]
      simp only [CY_FX_UVC_MAX_HEADER] at *
      have hb : bufSize % 65536 = bufSize := Nat.mod_eq_of_lt (by omega)
      omega
  | case2 off hB hcond =>
      rw [frameChunks_last _ _ _ _ hcond]
      simp only [List.map_cons, List.map_nil, List.sum_cons, List.sum_nil, List.length_cons,
        List.length_nil, CY_FX_UVC_MAX_HEADER]
      have hb : len - off + 12 < 65536 := by omega
      rw [Nat.mod_eq_of_lt hb]
      omega

lemma frameChunks_eof_shape (bufSize len : ℕ) (off : ℕ) (hB : 12 < bufSize) :
    (frameChunks bufSize len off hB).map Chunk.eof =
      List.replicate ((frameChunks bufSize len off hB).length - 1) false ++ [true] := by
  induction off, hB using frameChunks.induct bufSize len with
  | case1 off hB hcond ih =>
      rw [frameChunks_step _ _ _ _ hcond]
      simp only [List.map_cons, List.length_cons, ih]
      have hpos : 0 < (frameChunks bufSize len (off + (bufSize - CY_FX_UVC_MAX_HEADER)) hB).length :=
        List.length_pos.mpr (frameChunks_ne_nil _ _ _ _)
      rw [Nat.add_sub_cancel]
      rcases Nat.exists_eq_add_of_lt hpos with ⟨k, hk⟩
      simp only [hk, Nat.zero_add, Nat.add_sub_cancel, List.replicate_succ, List.cons_append]
  | case2 off hB hcond =>
      rw [frameChunks_last _ _ _ _ hcond]
      simp

lemma frameChunks_mem_shape (bufSize len : ℕ) (hBs : bufSize ≤ 65535)
    (hLen : len + 12 ≤ 65535) (off : ℕ) (hB : 12 < bufSize) :
    ∀ c ∈ frameChunks bufSize len off hB,
      (c.eof = false → c.copied = bufSize - CY_FX_UVC_MAX_HEADER ∧ c.commit = bufSize) ∧
      (c.eof = true → c.commit = c.copied + CY_FX_UVC_MAX_HEADER) := by
  induction off, hB using frameChunks.induct bufSize len with
  | case1 off hB hcond ih =>
      rw [frameChunks_step _ _ _ _ hcond]
      intro c hc
      rcases List.mem_cons.mp hc with h | h
      · subst h
        refine ⟨fun _ => ⟨rfl, Nat.mod_eq_of_lt (by omega)⟩, fun h => by simp at h⟩
      · exact ih c h
  | case2 off hB hcond =>
      rw [frameChunks_last _ _ _ _ hcond]
      intro c hc
      rcases List.mem_cons.mp hc with h | h
      · subst h
        refine ⟨fun h => by simp at h, fun _ => ?_⟩
        show ((len - off) + CY_FX_UVC_MAX_HEADER) % 65536 = (len - off) + CY_FX_UVC_MAX_HEADER
        simp only [CY_FX_UVC_MAX_HEADER]
        exact Nat.mod_eq_of_lt (by omega)
      · simp at h

/-! ### Header-stamper lemmas -/

lemma addHeader_eof_fst (tmpl : List ℕ) :
    (CyFxUVCAddHeader tmpl CY_FX_UVC_HEADER_EOF).1 =
      tmpl.set 1 (tmpl.getD 1 0 ^^^ CY_FX_UVC_HEADER_FRAME_ID) := by
  rw [CyFxUVCAddHeader, if_pos rfl]

lemma getD_set_one (tmpl : List ℕ) (v : ℕ) (htl : 1 < tmpl.length) :
    (tmpl.set 1 v).getD 1 0 = v := by
  rw [List.getD_eq_getElem?_getD, List.getElem?_set_eq_of_lt _ htl]
  rfl

lemma stampEofIter_length (tmpl : List ℕ) (N : ℕ) :
    (stampEofIter tmpl N).length = tmpl.length := by
  induction N generalizing tmpl with
  | zero => rfl
  | succ n ih => rw [stampEofIter, ih, addHeader_eof_fst, List.length_set]

/-- The frame-id bit (bit 0 of the bitfield byte) after `N` EOF stamps is the
initial bit XOR the parity of `N`. -/
lemma stampEofIter_bit0 (N : ℕ) (tmpl : List ℕ) (htl : 1 < tmpl.length) :
    ((stampEofIter tmpl N).getD 1 0).testBit 0
      = ((tmpl.getD 1 0).testBit 0).xor (decide (N % 2 = 1)) := by
  induction N generalizing tmpl with
  | zero => simp [stampEofIter]
  | succ n ih =>
      rw [stampEofIter, ih _ (by rw [addHeader_eof_fst, List.length_set]; exact htl)]
      rw [addHeader_eof_fst, getD_set_one _ _ htl]
      have hflip : (tmpl.getD 1 0 ^^^ CY_FX_UVC_HEADER_FRAME_ID).testBit 0
          = !((tmpl.getD 1 0).testBit 0) := by
        rw [Nat.testBit_xor]
        simp [CY_FX_UVC_HEADER_FRAME_ID]
      rw [hflip]
      rcases Nat.mod_two_eq_zero_or_one n with h | h
      · have h1 : (n + 1) % 2 = 1 := by omega
        simp [h, h1]
      · have h1 : (n + 1) % 2 = 0 := by omega
        simp [h, h1]

/-! ### Error-path lemmas -/

lemma runPass_append_ok (pre rest : List IterEnv)
    (h : ∀ e ∈ pre, e.active = true ∧ e.acquireStatus = 0 ∧ e.commitStatus = 0) :
    runPass 0 (pre ++ rest) = runPass 0 rest := by
  induction pre with
  | nil => rfl
  | cons e pre ih =>
      obtain ⟨ha, hacq, hcom⟩ := h e (List.mem_cons_self e pre)
      rw [List.cons_append, runPass]
      simp only [ha, hacq, hcom, ne_eq, not_true_eq_false, if_true, reduceIte]
      exact ih fun x hx => h x (List.mem_cons_of_mem _ hx)

/-! ### Bit preservation outside the MULT field -/

lemma testBit_splice_outside (val1 m : ℕ) (hm : m < 4) (hv : val1 < 2 ^ 32) (i : ℕ)
    (hi : Nat.testBit 0x3000 i = false) :
    Nat.testBit ((val1 &&& 0xFFFFCFFF) ||| (m <<< 12)) i = Nat.testBit val1 i := by
  rcases lt_or_ge i 32 with h32 | h32
  · have hmask : Nat.testBit 0xFFFFCFFF i = true := by
      have he : (0xFFFFCFFF : ℕ) = (2 ^ 32 - 1) ^^^ 0x3000 := by decide
      rw [he, Nat.testBit_xor, Nat.testBit_two_pow_sub_one, hi]
      simp [h32]
    have hsh : Nat.testBit (m <<< 12) i = false := by
      rw [Nat.testBit_shiftLeft]
      rcases lt_or_ge i 12 with hlt | hge
      · simp [Nat.not_le.mpr hlt]
      · have h12 : i ≠ 12 := by rintro rfl; exact absurd hi (by decide)
        have h13 : i ≠ 13 := by rintro rfl; exact absurd hi (by decide)
        have hj : 2 ≤ i - 12 := by omega
        have hm2 : m < 2 ^ (i - 12) := lt_of_lt_of_le hm (by
          calc (4 : ℕ) = 2 ^ 2 := rfl
          _ ≤ 2 ^ (i - 12) := Nat.pow_le_pow_right (by norm_num) hj)
        simp [Nat.testBit_eq_false_of_lt hm2]
    rw [Nat.testBit_or, Nat.testBit_and, hmask, hsh]
    simp
  · have hv1 : Nat.testBit val1 i = false :=
      Nat.testBit_eq_false_of_lt (lt_of_lt_of_le hv (Nat.pow_le_pow_right (by norm_num) h32))
    have hres : (val1 &&& 0xFFFFCFFF) ||| (m <<< 12) < 2 ^ 32 := by
      apply Nat.or_lt_two_pow
      · exact lt_of_le_of_lt Nat.and_le_left hv
      · calc m <<< 12 = m * 2 ^ 12 := by rw [Nat.shiftLeft_eq]
          _ < 4 * 2 ^ 12 := by omega
          _ ≤ 2 ^ 32 := by norm_num
    rw [hv1, Nat.testBit_eq_false_of_lt
      (lt_of_lt_of_le hres (Nat.pow_le_pow_right (by norm_num) h32))]

/-! ## Claim C1 (corrected) -/

/-- C1 counterexample: at an occupancy of exactly 1024 ready bytes (EPM value
`0x40200000`: ready bit set, DSIZE field 1024) the code programs MULT = 2
(`1024 / 1024 + 1`), while the claim's formula `clamp(ceil(1024/1024), 1, 3)`
gives 1 — so the programmed MULT does not equal the claimed clamped ceiling. -/
theorem C1_counterexample :
    epmReady 0x40200000 = true ∧ epmDsize 0x40200000 = 1024 ∧
    multField (CyFxUvcAppSetMultByEpm 0 0x40200000).1 = 2 ∧
    specClampCeilMult (epmDsize 0x40200000) = 1 ∧
    multField (CyFxUvcAppSetMultByEpm 0 0x40200000).1 ≠
      specClampCeilMult (epmDsize 0x40200000) := by
  refine ⟨by decide, by decide, by decide, by decide, by decide⟩

/-- C1 (amended): for every occupancy reading, the multiplier written into the
endpoint's MULT field equals `clamp(floor(bytes_ready / 1024) + 1, 1, 3)` when
the EPM is ready (not the claimed `clamp(ceil(bytes_ready / 1024), 1, 3)`,
which differs at exact multiples of 1024); an occupancy of 2500 bytes yields
3, and a not-ready state programs 1; the programmed value is never 0. -/
theorem C1_mult_is_clamped_floor_succ (val1 val2 : ℕ) :
    multField (CyFxUvcAppSetMultByEpm val1 val2).1 = max (min (rawMult val2) 3) 1 ∧
    (epmReady val2 = true →
      multField (CyFxUvcAppSetMultByEpm val1 val2).1 =
        max (min (epmDsize val2 / 1024 + 1) 3) 1) ∧
    (epmReady val2 = false → multField (CyFxUvcAppSetMultByEpm val1 val2).1 = 1) ∧
    (epmReady val2 = true → epmDsize val2 = 2500 →
      multField (CyFxUvcAppSetMultByEpm val1 val2).1 = 3) ∧
    1 ≤ multField (CyFxUvcAppSetMultByEpm val1 val2).1 := by
  have h := multField_setMult val1 val2
  refine ⟨h, fun hr => ?_, fun hr => ?_, fun hr hd => ?_, ?_⟩
  · rw [h, rawMult, hr, if_pos rfl]
  · rw [h, rawMult, hr]
    simp
  · rw [h, rawMult, hr, if_pos rfl, hd]
    decide
  · rw [h]
    omega

/-- C1 witness: at EPM value `0x404E2000` (ready, 2500 bytes), the programmed
MULT is 3. -/
theorem C1_witness :
    epmReady 0x404E2000 = true ∧ epmDsize 0x404E2000 = 2500 ∧
    multField (CyFxUvcAppSetMultByEpm 0 0x404E2000).1 = 3 :=
  ⟨by decide, by decide,
    (C1_mult_is_clamped_floor_succ 0 0x404E2000).2.2.2.1 (by decide) (by decide)⟩

/-! ## Claim C7 (confirmed) -/

/-- C7: `CyFxUvcAppSetMultByEpm` caches the raw pre-clamp multiplier (0 when
the EPM is not ready) into the shared `CurrentMultVal`, clamps only the local
copy before writing the MULT field, and the producer's "does the multiplier
need to change" test before a commit compares the implied value against that
raw cached value: a commit issued right after a consume-event callback skips
the reconfiguration sequence exactly when the raw cached value equals the
implied one. -/
theorem C7_raw_cached_clamped_local (val1 val2 cur implied len : ℕ) :
    (CyFxUvcAppSetMultByEpm val1 val2).2 = rawMult val2 ∧
    (epmReady val2 = false → (CyFxUvcAppSetMultByEpm val1 val2).2 = 0) ∧
    multField (CyFxUvcAppSetMultByEpm val1 val2).1 = max (min (rawMult val2) 3) 1 ∧
    ((hsCommit cur implied len val1 val2).1 = [Ev.commitBuffer len] ↔ cur = implied) ∧
    ((hsCommit (CyFxUVCAppDmaCallback CbType.consEvent Speed.high val1 val2 cur).2
        implied len val1 val2).1 = [Ev.commitBuffer len] ↔ rawMult val2 = implied) := by
  have hcb : (CyFxUVCAppDmaCallback CbType.consEvent Speed.high val1 val2 cur).2
      = rawMult val2 := by
    rw [CyFxUVCAppDmaCallback, if_pos ⟨rfl, rfl⟩]
    rfl
  have hiff : ∀ c : ℕ, (hsCommit c implied len val1 val2).1 = [Ev.commitBuffer len] ↔
      c = implied := by
    intro c
    by_cases hc : c = implied <;> simp [hsCommit, hc]
  refine ⟨rfl, fun hr => ?_, multField_setMult val1 val2, hiff cur, ?_⟩
  · show rawMult val2 = 0
    rw [rawMult, hr]
    rfl
  · rw [hcb]
    exact hiff _

/-- C7 witness: with a not-ready EPM (`val2 = 0`) the cached value is 0 while
the written MULT field is 1, and the matching-multiplier commit path is bare. -/
theorem C7_witness :
    epmReady 0 = false ∧ (CyFxUvcAppSetMultByEpm 3 0).2 = 0 ∧
    (hsCommit 1 1 1012 3 0).1 = [Ev.commitBuffer 1012] :=
  ⟨by decide, (C7_raw_cached_clamped_local 3 0 1 1 1012).2.1 (by decide),
    ((C7_raw_cached_clamped_local 3 0 1 1 1012).2.2.2.1).mpr rfl⟩

/-! ## Claim C9 (confirmed) -/

/-- C9: the write `CyFxUvcAppSetMultByEpm` performs is a read-modify-write
touching only the MULT bit-field: every bit outside
`FX3_USB2_INEP_MULT_MASK` of the written value equals the corresponding bit of
the value read at the start of the call (stated both through the 32-bit
complement mask `0xFFFFCFFF` and bitwise). -/
theorem C9_rmw_preserves_other_bits (val1 val2 : ℕ) (hv : val1 < 2 ^ 32) :
    (CyFxUvcAppSetMultByEpm val1 val2).1 &&& 0xFFFFCFFF = val1 &&& 0xFFFFCFFF ∧
    ∀ i, Nat.testBit FX3_USB2_INEP_MULT_MASK i = false →
      Nat.testBit (CyFxUvcAppSetMultByEpm val1 val2).1 i = Nat.testBit val1 i := by
  constructor
  · exact splice_preserves_outside val1 _ (clamped_lt_four _)
  · intro i hi
    simp only [FX3_USB2_INEP_MULT_MASK] at hi
    exact testBit_splice_outside val1 _ (clamped_lt_four _) hv i hi

/-- C9 witness at register value 5 (bits 0 and 2 set, outside the MULT
field). -/
theorem C9_witness :
    (CyFxUvcAppSetMultByEpm 5 0).1 &&& 0xFFFFCFFF = 5 &&& 0xFFFFCFFF ∧
    Nat.testBit (CyFxUvcAppSetMultByEpm 5 0).1 2 = Nat.testBit 5 2 :=
  ⟨(C9_rmw_preserves_other_bits 5 0 (by norm_num)).1,
    (C9_rmw_preserves_other_bits 5 0 (by norm_num)).2 2 (by decide)⟩

/-! ## Claim C2 (corrected) -/

/-- C2 counterexample: take `CurrentMultVal = 1` and implied multiplier 2 with
commit length 1012 and both registers reading 0.  The code's event trace NAKs
the endpoint, waits, issues the commit, waits again, and only then writes the
multiplier register — the commit (index 2) strictly precedes the register
write (index 4), and the trace differs from the spec's
apply-then-commit sequence, refuting "the programmed multiplier is updated
before that commit is issued". -/
theorem C2_counterexample :
    (hsCommit 1 2 1012 0 0).1 =
      [Ev.setEpNak true, Ev.busyWait 10, Ev.commitBuffer 1012, Ev.busyWait 20,
       Ev.writeEpCfgReg 4096, Ev.setEpNak false] ∧
    (hsCommit 1 2 1012 0 0).1.indexOf (Ev.commitBuffer 1012) <
      (hsCommit 1 2 1012 0 0).1.indexOf (Ev.writeEpCfgReg 4096) ∧
    (hsCommit 1 2 1012 0 0).1 ≠ specApplyThenCommit 1012 0 0 := by
  refine ⟨by decide, by decide, by decide⟩

/-- C2 (amended): at high speed, when the implied multiplier of the chunk
about to be committed differs from the cached `CurrentMultVal`, the commit is
issued *inside* the quiesce sequence — set endpoint NAK, busy-wait 10 µs,
commit the buffer, busy-wait 20 µs, then write the new multiplier (recomputed
from the endpoint-memory occupancy by `CyFxUvcAppSetMultByEpm`, not taken from
the commit's implied value) into the endpoint configuration register, and
clear NAK; the multiplier-register write therefore happens *after* the commit,
while the endpoint is NAKed.  When the implied multiplier already matches, the
commit is issued alone: no NAK, no wait, and no multiplier write. -/
theorem C2_commit_inside_nak_window (cur implied len cfg epm : ℕ) :
    (cur ≠ implied → hsCommit cur implied len cfg epm =
      ([Ev.setEpNak true, Ev.busyWait 10, Ev.commitBuffer len, Ev.busyWait 20,
        Ev.writeEpCfgReg (CyFxUvcAppSetMultByEpm cfg epm).1, Ev.setEpNak false],
       (CyFxUvcAppSetMultByEpm cfg epm).2)) ∧
    (cur = implied → hsCommit cur implied len cfg epm = ([Ev.commitBuffer len], cur)) ∧
    (∀ v, Ev.writeEpCfgReg v ∈ (hsCommit cur implied len cfg epm).1 → cur ≠ implied) := by
  refine ⟨fun h => by rw [hsCommit, if_pos h],
    fun h => by rw [hsCommit, if_neg (by simp [h])], ?_⟩
  intro v hv heq
  rw [hsCommit, if_neg (by simp [heq])] at hv
  simp at hv

/-- C2 witness: the differing-multiplier trace at `CurrentMultVal = 3`,
implied multiplier 1, commit length 212. -/
theorem C2_witness :
    (3 : ℕ) ≠ 1 ∧ hsCommit 3 1 212 0 0 =
      ([Ev.setEpNak true, Ev.busyWait 10, Ev.commitBuffer 212, Ev.busyWait 20,
        Ev.writeEpCfgReg (CyFxUvcAppSetMultByEpm 0 0).1, Ev.setEpNak false],
       (CyFxUvcAppSetMultByEpm 0 0).2) :=
  ⟨by decide, (C2_commit_inside_nak_window 3 1 212 0 0).1 (by decide)⟩

/-! ## Claim C3 (corrected) -/

/-- C3 counterexample: on a consume event at high speed, the DMA callback's
trace contains a write of the endpoint configuration register (the value
`CyFxUvcAppSetMultByEpm` computes — here 4096, i.e. MULT = 1 spliced into a
zero register), refuting "it never writes the endpoint's hardware
configuration register". -/
theorem C3_counterexample :
    Ev.writeEpCfgReg 4096 ∈
      (CyFxUVCAppDmaCallback CbType.consEvent Speed.high 0 0 1).1 ∧
    (CyFxUVCAppDmaCallback CbType.consEvent Speed.high 0 0 1).1 ≠ [] := by
  refine ⟨by decide, by decide⟩

/-- C3 (amended): the DMA consume-event callback re-samples occupancy and
updates the shared multiplier state by calling the same
`CyFxUvcAppSetMultByEpm` routine the producer uses — and that routine writes
the endpoint's hardware configuration register, so the callback does write
that register (on consume events at high speed); on any other event type or
speed it performs no action and leaves the state unchanged. -/
theorem C3_callback_writes_cfg_register (cfg epm cur : ℕ) (t : CbType) (s : Speed) :
    (CyFxUVCAppDmaCallback CbType.consEvent Speed.high cfg epm cur =
      ([Ev.writeEpCfgReg (CyFxUvcAppSetMultByEpm cfg epm).1],
       (CyFxUvcAppSetMultByEpm cfg epm).2)) ∧
    (¬(t = CbType.consEvent ∧ s = Speed.high) →
      CyFxUVCAppDmaCallback t s cfg epm cur = ([], cur)) := by
  refine ⟨by rw [CyFxUVCAppDmaCallback, if_pos ⟨rfl, rfl⟩],
    fun h => by rw [CyFxUVCAppDmaCallback, if_neg h]⟩

/-- C3 witness: a non-consume event leaves everything untouched. -/
theorem C3_witness :
    ¬(CbType.other = CbType.consEvent ∧ Speed.high = Speed.high) ∧
    CyFxUVCAppDmaCallback CbType.other Speed.high 0 0 7 = ([], 7) :=
  ⟨by decide, (C3_callback_writes_cfg_register 0 0 7 CbType.other Speed.high).2 (by decide)⟩

/-! ## Claim C4 (confirmed) -/

/-- C4: for a frame of any length, every non-EOF chunk copies exactly
`capacity - header` payload bytes and commits the full buffer capacity, the
EOF chunk commits its copied remainder plus the header length, the copied
payload over the frame is exactly the frame length, the committed lengths sum
to `header_length * chunk_count + frame.length`, and the final chunk is the
only one marked EOF. -/
theorem C4_frame_chunk_accounting (bufSize len : ℕ) (hB : 12 < bufSize)
    (hBs : bufSize ≤ 65535) (hLen : len + 12 ≤ 65535) :
    ((frameChunks bufSize len 0 hB).map Chunk.copied).sum = len ∧
    ((frameChunks bufSize len 0 hB).map Chunk.commit).sum
      = CY_FX_UVC_MAX_HEADER * (frameChunks bufSize len 0 hB).length + len ∧
    (frameChunks bufSize len 0 hB).map Chunk.eof =
      List.replicate ((frameChunks bufSize len 0 hB).length - 1) false ++ [true] ∧
    ∀ c ∈ frameChunks bufSize len 0 hB,
      (c.eof = false → c.copied = bufSize - CY_FX_UVC_MAX_HEADER ∧ c.commit = bufSize) ∧
      (c.eof = true → c.commit = c.copied + CY_FX_UVC_MAX_HEADER) := by
  refine ⟨?_, ?_, frameChunks_eof_shape _ _ _ _, frameChunks_mem_shape _ _ hBs hLen _ _⟩
  · simpa using frameChunks_copied_sum bufSize len 0 hB
  · simpa using frameChunks_commit_sum bufSize len hBs hLen 0 hB

/-- C4 witness at buffer size 1012 and frame length 200. -/
theorem C4_witness :
    (12 : ℕ) < 1012 ∧
    ((frameChunks 1012 200 0 (by norm_num)).map Chunk.copied).sum = 200 :=
  ⟨by norm_num,
    (C4_frame_chunk_accounting 1012 200 (by norm_num) (by norm_num) (by norm_num)).1⟩

/-! ## Claim C8 (corrected) -/

lemma chunks5000_eval :
    frameChunks 1012 5000 0 (by norm_num) =
      [⟨1000, 1012, false⟩, ⟨1000, 1012, false⟩, ⟨1000, 1012, false⟩, ⟨1000, 1012, false⟩,
       ⟨1000, 1012, true⟩] := by
  rw [frameChunks_step _ _ _ _ (by decide), frameChunks_step _ _ _ _ (by decide),
    frameChunks_step _ _ _ _ (by decide), frameChunks_step _ _ _ _ (by decide),
    frameChunks_last _ _ _ _ (by decide)]
  decide

lemma chunks200_eval :
    frameChunks 1012 200 0 (by norm_num) = [⟨200, 212, true⟩] := by
  rw [frameChunks_last _ _ _ _ (by decide)]
  decide

lemma chunks10000_eval :
    frameChunks 1012 10000 0 (by norm_num) =
      List.replicate 9 ⟨1000, 1012, false⟩ ++ [⟨1000, 1012, true⟩] := by
  rw [frameChunks_step _ _ _ _ (by decide), frameChunks_step _ _ _ _ (by decide),
    frameChunks_step _ _ _ _ (by decide), frameChunks_step _ _ _ _ (by decide),
    frameChunks_step _ _ _ _ (by decide), frameChunks_step _ _ _ _ (by decide),
    frameChunks_step _ _ _ _ (by decide), frameChunks_step _ _ _ _ (by decide),
    frameChunks_step _ _ _ _ (by decide), frameChunks_last _ _ _ _ (by decide)]
  decide

/-- C8 counterexample: with the claimed parameters (payload capacity 1000,
header 12, so buffer size 1012), frame 0 (5000 bytes) does yield 5 chunks,
but the fifth is a full-size 1012-byte chunk — no chunk of the frame is 88
bytes long, refuting "1 partial of 88 bytes including header". -/
theorem C8_counterexample :
    (frameChunks 1012 5000 0 (by norm_num)).length = 5 ∧
    ((frameChunks 1012 5000 0 (by norm_num)).map Chunk.commit).getLast? = some 1012 ∧
    ∀ c ∈ frameChunks 1012 5000 0 (by norm_num), c.commit ≠ 88 := by
  rw [chunks5000_eval]
  refine ⟨by decide, by decide, by decide⟩

/-- C8 (amended): for the 3-frame playlist [5000, 200, 10000] with buffer
size 1012 (payload capacity 1000, header 12), frame 0 yields 5 chunks — four
mid-frame chunks and a final EOF chunk, all committing 1012 bytes (the frame
length is an exact multiple of the payload capacity, so the last chunk is
full-sized, not an 88-byte partial); frame 1 yields a single 212-byte EOF
chunk; frame 2 yields 10 chunks; and each frame's committed bytes total
`frame.length + header_length * chunk_count`. -/
theorem C8_scenario_chunks :
    (frameChunks 1012 5000 0 (by norm_num)).length = 5 ∧
    (frameChunks 1012 5000 0 (by norm_num)).map Chunk.commit =
      [1012, 1012, 1012, 1012, 1012] ∧
    (frameChunks 1012 5000 0 (by norm_num)).map Chunk.eof =
      [false, false, false, false, true] ∧
    frameChunks 1012 200 0 (by norm_num) = [⟨200, 212, true⟩] ∧
    (frameChunks 1012 10000 0 (by norm_num)).length = 10 ∧
    (frameChunks 1012 10000 0 (by norm_num)).map Chunk.eof =
      List.replicate 9 false ++ [true] ∧
    ((frameChunks 1012 5000 0 (by norm_num)).map Chunk.commit).sum = 5000 + 12 * 5 ∧
    ((frameChunks 1012 200 0 (by norm_num)).map Chunk.commit).sum = 200 + 12 * 1 ∧
    ((frameChunks 1012 10000 0 (by norm_num)).map Chunk.commit).sum = 10000 + 12 * 10 := by
  rw [chunks5000_eval, chunks200_eval, chunks10000_eval]
  refine ⟨by decide, by decide, by decide, by decide, by decide, by decide, by decide,
    by decide, by decide⟩

/-! ## Claim C10 (confirmed) -/

/-- C10: whenever the remaining payload of the current frame is zero at a
chunk boundary (in particular for a zero-length frame), the loop body takes
the final-chunk branch: it copies zero payload bytes, commits exactly the
header length with EOF set, and advances the cursor to the next frame
(wrapping to frame 0 at the end of the playlist). -/
theorem C10_zero_remaining_final_chunk (bufSize : ℕ) (frameLens : List ℕ) (c : Cursor)
    (h : frameLens.getD c.frameIndex 0 = c.frameOffset) :
    (loopStep bufSize frameLens c).1 = ⟨0, CY_FX_UVC_MAX_HEADER, true⟩ ∧
    (loopStep bufSize frameLens c).2.frameOffset = 0 ∧
    (loopStep bufSize frameLens c).2.frameIndex =
      (if c.frameIndex + 1 ≥ frameLens.length then 0 else c.frameIndex + 1) := by
  have hcond : ¬ (c.frameOffset + (bufSize - CY_FX_UVC_MAX_HEADER) <
      frameLens.getD c.frameIndex 0) := by
    rw [h]
    omega
  simp only [loopStep]
  rw [if_neg hcond]
  refine ⟨?_, ?_, ?_⟩
  · rw [h]
    simp [CY_FX_UVC_MAX_HEADER]
  · split <;> rfl
  · split <;> rfl

/-- C10 witness: a playlist holding a single zero-length frame. -/
theorem C10_witness :
    List.getD [0] 0 0 = 0 ∧
    (loopStep 1012 [0] ⟨0, 0, 0⟩).1 = ⟨0, CY_FX_UVC_MAX_HEADER, true⟩ :=
  ⟨by decide, (C10_zero_remaining_final_chunk 1012 [0] ⟨0, 0, 0⟩ (by decide)).1⟩

/-! ## Claim C5 (confirmed) -/

/-- C5: `CyFxUVCAddHeader` copies the template into the buffer; a non-EOF
stamp changes nothing; an EOF stamp sets the EOF bit only in the buffer's
copy, preserves the template's EOF bit (bit 1), flips the template's frame-id
bit (bit 0) exactly once, and after `N` completed frames the template's
frame-id bit equals its initial value XOR `(N mod 2)`. -/
theorem C5_header_stamp (tmpl : List ℕ) (ind N : ℕ) (htl : 1 < tmpl.length) :
    (ind ≠ CY_FX_UVC_HEADER_EOF → CyFxUVCAddHeader tmpl ind = (tmpl, tmpl)) ∧
    ((CyFxUVCAddHeader tmpl CY_FX_UVC_HEADER_EOF).2 =
      tmpl.set 1 (tmpl.getD 1 0 ||| CY_FX_UVC_HEADER_EOF)) ∧
    (((CyFxUVCAddHeader tmpl CY_FX_UVC_HEADER_EOF).1.getD 1 0).testBit 1
      = (tmpl.getD 1 0).testBit 1) ∧
    (((CyFxUVCAddHeader tmpl CY_FX_UVC_HEADER_EOF).1.getD 1 0).testBit 0
      = !((tmpl.getD 1 0).testBit 0)) ∧
    (((stampEofIter tmpl N).getD 1 0).testBit 0
      = ((tmpl.getD 1 0).testBit 0).xor (decide (N % 2 = 1))) := by
  refine ⟨fun h => by rw [CyFxUVCAddHeader, if_neg h],
    by rw [CyFxUVCAddHeader, if_pos rfl], ?_, ?_, stampEofIter_bit0 N tmpl htl⟩
  · rw [addHeader_eof_fst, getD_set_one _ _ htl, Nat.testBit_xor,
      show Nat.testBit CY_FX_UVC_HEADER_FRAME_ID 1 = false from by decide]
    simp
  · rw [addHeader_eof_fst, getD_set_one _ _ htl, Nat.testBit_xor,
      show Nat.testBit CY_FX_UVC_HEADER_FRAME_ID 0 = true from by decide]
    simp

/-- C5 witness on the real header template after two completed frames. -/
theorem C5_witness :
    1 < glUVCHeaderInit.length ∧
    ((stampEofIter glUVCHeaderInit 2).getD 1 0).testBit 0
      = ((glUVCHeaderInit.getD 1 0).testBit 0).xor (decide (2 % 2 = 1)) :=
  ⟨by decide, (C5_header_stamp glUVCHeaderInit 0 2 (by decide)).2.2.2.2⟩

/-! ## Claim C6 (confirmed) -/

/-- C6: after any run of successful active iterations, a failing buffer
acquire (or a failing commit) makes the inner loop exit with that status; if
`glIsApplnActive` was already cleared by `stop()` when the producer re-checks
it, the pass ends in the idle sleep (no fatal error), while if the controller
is still active the producer invokes the fatal error handler — whose
behaviour is nothing but an endless sequence of 100 ms sleeps (no retry). -/
theorem C6_error_handling (pre : List IterEnv) (code n : ℕ)
    (hpre : ∀ e ∈ pre, e.active = true ∧ e.acquireStatus = 0 ∧ e.commitStatus = 0)
    (hcode : code ≠ 0) :
    streamerPass (pre ++ [⟨true, code, 0⟩]) false = PassOutcome.idleSleep ∧
    streamerPass (pre ++ [⟨true, code, 0⟩]) true = PassOutcome.fatalHalt ∧
    streamerPass (pre ++ [⟨true, 0, code⟩]) false = PassOutcome.idleSleep ∧
    streamerPass (pre ++ [⟨true, 0, code⟩]) true = PassOutcome.fatalHalt ∧
    errorHandlerTrace n = List.replicate n (Ev.threadSleep 100) := by
  have h1 : runPass 0 (pre ++ [⟨true, code, 0⟩]) = code := by
    rw [runPass_append_ok _ _ hpre]
    simp [runPass, hcode]
  have h2 : runPass 0 (pre ++ [⟨true, 0, code⟩]) = code := by
    rw [runPass_append_ok _ _ hpre]
    simp [runPass, hcode]
  have htrace : ∀ m, errorHandlerTrace m = List.replicate m (Ev.threadSleep 100) := by
    intro m
    induction m with
    | zero => rfl
    | succ k ih => rw [errorHandlerTrace, ih, List.replicate_succ]
  refine ⟨?_, ?_, ?_, ?_, htrace n⟩ <;>
    simp [streamerPass, h1, h2, afterPass, hcode]

/-- C6 witness: a one-iteration script whose acquire fails with status 1. -/
theorem C6_witness :
    (1 : ℕ) ≠ 0 ∧ streamerPass [⟨true, 1, 0⟩] false = PassOutcome.idleSleep ∧
      streamerPass [⟨true, 1, 0⟩] true = PassOutcome.fatalHalt := by
  have h := C6_error_handling [] 1 0 (by simp) (by decide)
  exact ⟨by decide, h.1, h.2.1⟩

end Uvc
